import Mathlib

/-
Verification of the hx711_spi driver (src/lib.rs): a driver for the HX711
24-bit ADC that emulates the two-wire clock/data protocol of the chip over a
full-duplex SPI bus.  The SPI bus is modelled as an oracle giving, for each
transfer_in_place call issued by an operation, either a transport error or
the stream of received bytes; operations additionally record the trace of
transmitted buffers so that claims about which transfers happen are statable.
-/

namespace Hx711Spi

/-- Mode selector byte for channel A gain 128 (src/lib.rs lines 14-17).  The
argument is the invert-sdo cfg feature: `false` gives the normal-polarity
constant, `true` the inverted one, exactly as written in the source. -/
def GAIN128 (inv : Bool) : Nat := if inv then 0b01111111 else 0b10000000

/-- Mode selector byte for channel B gain 32 (src/lib.rs lines 19-22). -/
def GAIN32 (inv : Bool) : Nat := if inv then 0b01011111 else 0b10100000

/-- Mode selector byte for channel A gain 64 (src/lib.rs lines 24-27). -/
def GAIN64 (inv : Bool) : Nat := if inv then 0b01010111 else 0b10101000

/-- Clock pulse byte transferred to shift sample bits out (lines 31-34). -/
def CLOCK (inv : Bool) : Nat := if inv then 0b01010101 else 0b10101010

/-- Byte sent while probing whether data is ready (lines 37-40). -/
def SIGNAL_LOW (inv : Bool) : Nat := if inv then 0xFF else 0x0

/-- The 301-byte reset signal buffer (lines 43-46). -/
def RESET_SIGNAL (inv : Bool) : List Nat :=
  List.replicate 301 (if inv then 0x00 else 0xFF)

/-- The Mode enum (src/lib.rs lines 54-62). -/
inductive Mode
  | ChAGain128
  | ChBGain32
  | ChAGain64
deriving DecidableEq, Repr

/-- The repr(u8) discriminant of Mode: `self.mode as u8` picks the
cfg-selected selector constant (lines 57-61). -/
def Mode.toByte (inv : Bool) : Mode → Nat
  | .ChAGain128 => GAIN128 inv
  | .ChBGain32 => GAIN32 inv
  | .ChAGain64 => GAIN64 inv

/-- The driver error enum (src/lib.rs lines 64-69): a wrapped transport
error, or the device taking too long to report ready. -/
inductive Error (E : Type)
  | Spi (e : E)
  | NotReadyInTime
deriving DecidableEq, Repr

/-- SPI bus oracle: `fail n` is `some e` when the n-th transfer_in_place
call inside one driver operation fails with transport error `e`; otherwise
`rx n i` is the byte received at position `i` of the n-th transfer (taken
mod 256, since received bytes are u8). -/
structure SpiOracle (E : Type) where
  fail : Nat → Option E
  rx : Nat → Nat → Nat

variable {E : Type}

/-- Model of `SpiBus::transfer_in_place` for the n-th call of an operation:
the buffer is overwritten by the received bytes, preserving its length, or
the transport error is reported. -/
def transfer_in_place (bus : SpiOracle E) (n : Nat) (buf : List Nat) :
    Except E (List Nat) :=
  match bus.fail n with
  | some e => Except.error e
  | none => Except.ok ((List.range buf.length).map fun i => bus.rx n i % 256)

/-- Bit extraction performed by `#[bitmatch] let "a?a?a?a?" = byte`
(src/lib.rs lines 222-233): collect the bits at positions 7, 5, 3, 1 of the
byte into a nibble, most significant first. -/
def extract_payload (b : Nat) : Nat :=
  (b / 128 % 2) * 8 + (b / 32 % 2) * 4 + (b / 8 % 2) * 2 + (b / 2 % 2)

/-- The decoder `decode_output` (src/lib.rs lines 215-242): extract the
payload nibble of each of the first six bytes, pack them into the three high
bytes of a big-endian 32-bit word with low byte zero (`raw`), reinterpret as
a signed 32-bit integer (`i32::from_be_bytes`), and divide by 0x100 with
Rust signed division (truncation toward zero, `Int.tdiv`). -/
def decode_output (buffer : List Nat) : Int :=
  let a := extract_payload (buffer.getD 0 0)
  let b := extract_payload (buffer.getD 1 0)
  let c := extract_payload (buffer.getD 2 0)
  let d := extract_payload (buffer.getD 3 0)
  let e := extract_payload (buffer.getD 4 0)
  let f := extract_payload (buffer.getD 5 0)
  let raw0 := a * 16 + b
  let raw1 := c * 16 + d
  let raw2 := e * 16 + f
  let u : Nat := raw0 * 2 ^ 24 + raw1 * 2 ^ 16 + raw2 * 2 ^ 8
  let v : Int := if u < 2 ^ 31 then (u : Int) else (u : Int) - 2 ^ 32
  Int.tdiv v 0x100

/-- Reference decoder following the words of the specification (section 4.3):
extract the payload bit (every other bit) from each of the first 6 bytes,
concatenate the 24 extracted bits most significant first into a
two-complement value, left-align it in a big-endian 32-bit word with low
byte zero, interpret as signed 32-bit, and arithmetic-right-shift by 8
(floor division by 256, `Int.fdiv`). -/
def decode_spec (buffer : List Nat) : Int :=
  let bits : List Nat := (List.range 6).flatMap fun k =>
    [buffer.getD k 0 / 2 ^ 7 % 2, buffer.getD k 0 / 2 ^ 5 % 2,
     buffer.getD k 0 / 2 ^ 3 % 2, buffer.getD k 0 / 2 ^ 1 % 2]
  let p : Nat := bits.foldl (fun acc bit => 2 * acc + bit) 0
  let u : Nat := p * 2 ^ 8
  let s : Int := if u < 2 ^ 31 then (u : Int) else (u : Int) - 2 ^ 32
  Int.fdiv s (2 ^ 8)

/-- The readiness retry loop of `read_val` (src/lib.rs lines 126-138),
translated as written: `txrx0` is the byte received by the probe transfer
issued once before the loop; the loop breaks (`true`) when the low bit of
that same, never refreshed, byte is not 1, and returns NotReadyInTime
(`false`) once `attempt` exceeds 1000. -/
def poll_loop (txrx0 : Nat) (attempt : Nat) : Bool :=
  if txrx0 % 2 ≠ 1 then true
  else if attempt > 1000 then false
  else poll_loop txrx0 (attempt + 1)
termination_by 1001 - attempt
decreasing_by omega

/-- The 7-byte transmit buffer of a read transaction (src/lib.rs line 140):
six clock bytes followed by the current mode selector byte. -/
def read_buffer (inv : Bool) (m : Mode) : List Nat :=
  [CLOCK inv, CLOCK inv, CLOCK inv, CLOCK inv, CLOCK inv, CLOCK inv,
   Mode.toByte inv m]

/-- Model of `Hx711::read_val` (src/lib.rs lines 117-145): probe readiness with a
one-byte transfer, run the retry loop on the received byte, then transfer
the 7-byte clock+mode buffer and decode the response.  Returns the result
paired with the trace of transmitted buffers. -/
def read_val (inv : Bool) (m : Mode) (bus : SpiOracle E) :
    Except (Error E) Int × List (List Nat) :=
  let txrx := [SIGNAL_LOW inv]
  match transfer_in_place bus 0 txrx with
  | Except.error e => (Except.error (Error.Spi e), [txrx])
  | Except.ok rx0 =>
    if poll_loop (rx0.headD 0) 0 then
      let buffer := read_buffer inv m
      match transfer_in_place bus 1 buffer with
      | Except.error e => (Except.error (Error.Spi e), [txrx, buffer])
      | Except.ok rx => (Except.ok (decode_output rx), [txrx, buffer])
    else (Except.error Error.NotReadyInTime, [txrx])

/-- Model of `Hx711::reset` (src/lib.rs lines 151-166): transfer the 301-byte reset
buffer; on success set the stored mode back to ChAGain128.  The error type
is the bare transport error `E`, exactly as in the source signature
`Result<(), SPI::Error>`.  First component: result and new stored mode;
second: the trace of transmitted buffers. -/
def reset (inv : Bool) (m : Mode) (bus : SpiOracle E) :
    (Except E Unit × Mode) × List (List Nat) :=
  let buffer := RESET_SIGNAL inv
  match transfer_in_place bus 0 buffer with
  | Except.error e => ((Except.error e, m), [buffer])
  | Except.ok _ => ((Except.ok (), Mode.ChAGain128), [buffer])

/-- Model of `Hx711::set_mode` (src/lib.rs lines 172-178): store the requested mode
`x` (replacing the prior mode `m0`), then run one full read_val cycle;
on success return the mode that was set. -/
def set_mode (inv : Bool) (m0 x : Mode) (bus : SpiOracle E) :
    (Except (Error E) Mode × Mode) × List (List Nat) :=
  let r := read_val inv x bus
  match r.1 with
  | Except.error e => ((Except.error e, x), r.2)
  | Except.ok _ => ((Except.ok x, x), r.2)

/-- Model of `Hx711::mode` (src/lib.rs lines 182-184): return the stored mode. -/
def mode (m : Mode) : Mode := m

/-- Model of `Hx711::get_mode` (src/lib.rs lines 188-190): compatibility alias. -/
def get_mode (m : Mode) : Mode := m

/-- Outcome of a power control entry point: a normal return of unit, a
transport error, or a panic with a message (the effect of the
`unimplemented!` macro). -/
inductive PowerOutcome (E : Type)
  | ok
  | err (e : E)
  | panicked (msg : String)
deriving DecidableEq, Repr

/-- Model of `Hx711::disable` (src/lib.rs lines 197-203): unconditionally invokes
`unimplemented!` with the given message; it never returns. -/
def disable (E : Type) : PowerOutcome E :=
  PowerOutcome.panicked
    "power_down is not possible with this driver implementation"

/-- Model of `Hx711::enable` (src/lib.rs lines 206-212): identical to disable. -/
def enable (E : Type) : PowerOutcome E :=
  PowerOutcome.panicked
    "power_down is not possible with this driver implementation"

/-! Helper lemmas and concrete bus oracles used by the claims. -/

/-- Oracle whose transfers all succeed and always receive the byte `b`. -/
def constBus (b : Nat) : SpiOracle Unit := ⟨fun _ => none, fun _ _ => b⟩

/-- Oracle for the stale-probe scenario: transfers never fail, the first
transfer receives the busy byte 1, every later transfer receives 0. -/
def staleBus : SpiOracle Unit := ⟨fun _ => none, fun n _ => if n = 0 then 1 else 0⟩

/-- Oracle over transport error type Nat failing every transfer with 5. -/
def failBus : SpiOracle Nat := ⟨fun _ => some 5, fun _ _ => 0⟩

/-- Oracle failing only the second transfer (index 1) with error 7; the
probe transfer succeeds and receives the ready byte 0. -/
def fail2Bus : SpiOracle Nat :=
  ⟨fun n => if n = 1 then some 7 else none, fun _ _ => 0⟩

theorem poll_loop_ready {t : Nat} (h : t % 2 ≠ 1) (a : Nat) :
    poll_loop t a = true := by
  rw [poll_loop]
  simp [h]

theorem poll_loop_busy {t : Nat} (h : t % 2 = 1) :
    ∀ k a, 1001 ≤ a + k → poll_loop t a = false := by
  intro k
  induction k with
  | zero =>
    intro a ha
    have hb : a > 1000 := by omega
    rw [poll_loop]
    simp [h, hb]
  | succ k ih =>
    intro a ha
    rw [poll_loop]
    by_cases hb : a > 1000
    · simp [h, hb]
    · simp [h, hb]
      exact ih (a + 1) (by omega)

theorem poll_loop_busy_zero {t : Nat} (h : t % 2 = 1) :
    poll_loop t 0 = false :=
  poll_loop_busy h 1001 0 (by omega)

/-- Evaluation of read_val on the stale-probe oracle: the first (and only)
probe receives the busy byte, the loop never refreshes it, so the call fails
with NotReadyInTime after exactly one transmitted buffer. -/
theorem staleBus_read_val (m : Mode) :
    read_val false m staleBus =
      (Except.error Error.NotReadyInTime, [[SIGNAL_LOW false]]) := by
  have hb : poll_loop 1 0 = false := poll_loop_busy_zero (by decide)
  simp [read_val, transfer_in_place, staleBus, SIGNAL_LOW, hb]

/-- C1 (refuted by the code, code bug): with a bus whose first transfer
receives the busy byte 1 and whose every later transfer would receive the
ready byte 0, read_val returns NotReadyInTime with a trace of exactly one
transmitted buffer — the single initial probe.  The retry loop never issues
a fresh probe transfer; it re-inspects the same stale byte on every retry,
contradicting the claim that each retry performs a fresh bus transfer. -/
theorem read_val_never_reprobes :
    read_val false Mode.ChAGain128 staleBus =
      (Except.error Error.NotReadyInTime, [[SIGNAL_LOW false]]) ∧
    staleBus.rx 1 0 % 2 ≠ 1 :=
  ⟨staleBus_read_val Mode.ChAGain128, by decide⟩

/-- C2: the four known decoder vectors from the test suite: all 0x55 bytes
decode to 0, all 0xAA and all 0xFF decode to -1, and seven bytes of
0b00100111 decode to 0x00555555. -/
theorem decode_known_vectors :
    decode_output [0x55, 0x55, 0x55, 0x55, 0x55, 0x55, 0x55] = 0 ∧
    decode_output [0xAA, 0xAA, 0xAA, 0xAA, 0xAA, 0xAA, 0xAA] = -1 ∧
    decode_output [0xFF, 0xFF, 0xFF, 0xFF, 0xFF, 0xFF, 0xFF] = -1 ∧
    decode_output [0b00100111, 0b00100111, 0b00100111, 0b00100111,
      0b00100111, 0b00100111, 0b00100111] = 0x00555555 := by
  refine ⟨?_, ?_, ?_, ?_⟩ <;> decide

/-- C4: both power control entry points unconditionally reach the
`unimplemented!` panic with an operation-not-supported message; neither ever
returns success, a transport error, or acts as a silent no-op. -/
theorem power_control_always_unsupported (E : Type) :
    disable E = PowerOutcome.panicked
      "power_down is not possible with this driver implementation" ∧
    enable E = disable E ∧
    disable E ≠ PowerOutcome.ok ∧ enable E ≠ PowerOutcome.ok ∧
    ∀ e : E, disable E ≠ PowerOutcome.err e ∧ enable E ≠ PowerOutcome.err e := by
  refine ⟨rfl, rfl, ?_, ?_, fun e => ⟨?_, ?_⟩⟩ <;> simp [disable, enable]

/-- C8: every inverted-polarity protocol constant is the bitwise complement
(xor with 0xFF) of the corresponding normal-polarity constant, including
every byte of the 301-byte reset signal. -/
theorem inverted_constants_complement :
    GAIN128 true = 255 ^^^ GAIN128 false ∧
    GAIN32 true = 255 ^^^ GAIN32 false ∧
    GAIN64 true = 255 ^^^ GAIN64 false ∧
    CLOCK true = 255 ^^^ CLOCK false ∧
    SIGNAL_LOW true = 255 ^^^ SIGNAL_LOW false ∧
    RESET_SIGNAL true = (RESET_SIGNAL false).map fun b => 255 ^^^ b := by
  refine ⟨by decide, by decide, by decide, by decide, by decide, ?_⟩
  rw [RESET_SIGNAL, RESET_SIGNAL, List.map_replicate]
  norm_num

/-- C3: for every oracle, polarity and mode, read_val returns one of exactly
three outcomes: a wrapped transport error, the distinct NotReadyInTime
error, or a decoded value obtained after transmitting the probe followed by
the 7-byte clock+mode buffer.  In particular the readiness retry loop is
bounded (at most 1001 increments of the attempt counter) and read_val never
loops forever. -/
theorem read_val_terminates (inv : Bool) (m : Mode) (bus : SpiOracle E) :
    (∃ e, (read_val inv m bus).1 = Except.error (Error.Spi e)) ∨
    (read_val inv m bus).1 = Except.error Error.NotReadyInTime ∨
    (∃ v, (read_val inv m bus).1 = Except.ok v ∧
      (read_val inv m bus).2 = [[SIGNAL_LOW inv], read_buffer inv m]) := by
  simp only [read_val]
  split
  · rename_i e heq
    exact Or.inl ⟨e, rfl⟩
  · split
    · split
      · rename_i e heq
        exact Or.inl ⟨e, rfl⟩
      · rename_i rx heq
        exact Or.inr (Or.inr ⟨decode_output rx, rfl, rfl⟩)
    · exact Or.inr (Or.inl rfl)

/-- C5: whenever reset completes successfully, the stored mode afterwards is
ChAGain128, for every mode held before the call. -/
theorem reset_restores_default (inv : Bool) (m : Mode) (bus : SpiOracle E)
    (h : ((reset inv m bus).1).1 = Except.ok ()) :
    ((reset inv m bus).1).2 = Mode.ChAGain128 := by
  simp only [reset] at h ⊢
  cases h0 : transfer_in_place bus 0 (RESET_SIGNAL inv) with
  | error e => rw [h0] at h; simp at h
  | ok rx => rfl

/-- Witness for C5 at a concrete bus whose transfers always succeed,
starting from the non-default mode ChBGain32. -/
theorem reset_restores_default_witness :
    ((reset false Mode.ChBGain32 (constBus 0)).1).2 = Mode.ChAGain128 :=
  reset_restores_default false Mode.ChBGain32 (constBus 0) rfl

/-- C6: set_mode stores the requested mode x (whatever mode m0 was held
before), performs one full read_val cycle on the bus (identical transfer
trace), and its result is either an error or precisely x; mode and get_mode
afterwards return x. -/
theorem set_mode_stores_and_returns (inv : Bool) (m0 x : Mode)
    (bus : SpiOracle E) :
    ((set_mode inv m0 x bus).1).2 = x ∧
    mode ((set_mode inv m0 x bus).1).2 = x ∧
    get_mode ((set_mode inv m0 x bus).1).2 = x ∧
    (set_mode inv m0 x bus).2 = (read_val inv x bus).2 ∧
    ((∃ e, ((set_mode inv m0 x bus).1).1 = Except.error e) ∨
      ((set_mode inv m0 x bus).1).1 = Except.ok x) := by
  simp only [set_mode, mode, get_mode]
  cases h : (read_val inv x bus).1 with
  | error e => exact ⟨rfl, rfl, rfl, rfl, Or.inl ⟨e, rfl⟩⟩
  | ok v => exact ⟨rfl, rfl, rfl, rfl, Or.inr rfl⟩

/-- C10: set_mode is not atomic on failure: the stored mode is updated to x
before the embedded read runs, so even when set_mode returns an error the
subsequent mode and get_mode calls return x rather than the previous mode
m0. -/
theorem set_mode_mode_survives_error (inv : Bool) (m0 x : Mode)
    (bus : SpiOracle E) (err : Error E)
    (h : ((set_mode inv m0 x bus).1).1 = Except.error err) :
    mode ((set_mode inv m0 x bus).1).2 = x ∧
    get_mode ((set_mode inv m0 x bus).1).2 = x := by
  simp only [set_mode, mode, get_mode]
  cases h0 : (read_val inv x bus).1 with
  | error e => exact ⟨rfl, rfl⟩
  | ok v => exact ⟨rfl, rfl⟩

/-- Propagation of a read_val failure through set_mode, kept symbolic in the
bus oracle. -/
theorem set_mode_err_of_read_val_err (inv : Bool) (m0 x : Mode)
    (bus : SpiOracle E) (err : Error E)
    (h : (read_val inv x bus).1 = Except.error err) :
    ((set_mode inv m0 x bus).1).1 = Except.error err := by
  simp only [set_mode]
  rw [h]

/-- Witness for C10: on the stale-probe bus, set_mode fails with
NotReadyInTime, yet the stored mode afterwards is the newly requested
ChAGain64 and not the prior ChAGain128. -/
theorem set_mode_mode_survives_error_witness :
    mode ((set_mode false Mode.ChAGain128 Mode.ChAGain64 staleBus).1).2 =
      Mode.ChAGain64 ∧
    get_mode ((set_mode false Mode.ChAGain128 Mode.ChAGain64 staleBus).1).2 =
      Mode.ChAGain64 :=
  set_mode_mode_survives_error false Mode.ChAGain128 Mode.ChAGain64 staleBus
    Error.NotReadyInTime
    (set_mode_err_of_read_val_err false Mode.ChAGain128 Mode.ChAGain64
      staleBus Error.NotReadyInTime
      (congrArg Prod.fst (staleBus_read_val Mode.ChAGain64)))

/-- C9 (amended): whenever a bus transfer fails with transport error e, the
operation returns immediately with e and performs no retry: read_val and
set_mode wrap e in the Error.Spi variant, while reset propagates the bare e
unchanged — its error type is the transport error type itself — and leaves
the stored mode untouched; a failure of the second (7-byte) transfer of
read_val is likewise wrapped and returned at once. -/
theorem transport_error_propagation (inv : Bool) (m0 x m : Mode)
    (bus : SpiOracle E) (e : E) :
    (bus.fail 0 = some e →
      (read_val inv m bus).1 = Except.error (Error.Spi e) ∧
      (read_val inv m bus).2 = [[SIGNAL_LOW inv]] ∧
      ((reset inv m bus).1).1 = Except.error e ∧
      ((reset inv m bus).1).2 = m ∧
      ((set_mode inv m0 x bus).1).1 = Except.error (Error.Spi e)) ∧
    (bus.fail 0 = none → bus.fail 1 = some e → bus.rx 0 0 % 2 = 0 →
      (read_val inv m bus).1 = Except.error (Error.Spi e) ∧
      ((set_mode inv m0 x bus).1).1 = Except.error (Error.Spi e)) := by
  constructor
  · intro h0
    have ht : ∀ buf : List Nat, transfer_in_place bus 0 buf = Except.error e := by
      intro buf; simp [transfer_in_place, h0]
    have hrv : ∀ mm : Mode, read_val inv mm bus =
        (Except.error (Error.Spi e), [[SIGNAL_LOW inv]]) := by
      intro mm; simp [read_val, ht]
    refine ⟨by rw [hrv], by rw [hrv], ?_, ?_, ?_⟩
    · simp [reset, ht]
    · simp [reset, ht]
    · simp [set_mode, hrv]
  · intro h0 h1 hr
    have hrange : List.range 1 = [0] := by decide
    have ht : transfer_in_place bus 0 [SIGNAL_LOW inv] =
        Except.ok [bus.rx 0 0 % 256] := by
      simp [transfer_in_place, h0, hrange]
    have hpoll : poll_loop (bus.rx 0 0 % 256) 0 = true :=
      poll_loop_ready (by omega) 0
    have ht1 : ∀ buf : List Nat, transfer_in_place bus 1 buf =
        Except.error e := by
      intro buf; simp [transfer_in_place, h1]
    have hrv : ∀ mm : Mode, (read_val inv mm bus).1 =
        Except.error (Error.Spi e) := by
      intro mm; simp [read_val, ht, ht1, hpoll]
    exact ⟨hrv m, by simp [set_mode, hrv]⟩

/-- Witness for C9: the amended theorem applied to two concrete oracles,
one failing the first transfer with error 5 and one failing only the second
transfer with error 7. -/
theorem transport_error_propagation_witness :
    (read_val false Mode.ChAGain128 failBus).1 =
      Except.error (Error.Spi 5) ∧
    (read_val false Mode.ChAGain128 fail2Bus).1 =
      Except.error (Error.Spi 7) :=
  ⟨((transport_error_propagation false Mode.ChAGain128 Mode.ChBGain32
      Mode.ChAGain128 failBus 5).1 rfl).1,
   ((transport_error_propagation false Mode.ChAGain128 Mode.ChBGain32
      Mode.ChAGain128 fail2Bus 7).2 rfl rfl rfl).1⟩

/-- Counterexample for C9 as stated: with the bus failing its first transfer
with transport error 5 : Nat, the caller of reset observes the bare error 5
— the result lives in Except Nat and carries no transport-error variant —
while read_val surfaces the very same bus failure wrapped as Error.Spi 5.
So it is false that all three operations return the error wrapped as the
transport-error variant: reset does not wrap. -/
theorem reset_error_unwrapped_counterexample :
    ((reset false Mode.ChAGain128 failBus).1).1 =
      (Except.error 5 : Except Nat Unit) ∧
    (read_val false Mode.ChAGain128 failBus).1 =
      Except.error (Error.Spi 5) := by
  exact ⟨rfl, rfl⟩

/-! Closed form of the decoder, used to settle the refinement claim. -/

theorem extract_payload_lt (b : Nat) : extract_payload b < 16 := by
  unfold extract_payload
  omega

/-- The 24-bit payload assembled by the decoder: the six extracted nibbles,
most significant first. -/
def payload (buffer : List Nat) : Nat :=
  extract_payload (buffer.getD 0 0) * 2 ^ 20 +
  extract_payload (buffer.getD 1 0) * 2 ^ 16 +
  extract_payload (buffer.getD 2 0) * 2 ^ 12 +
  extract_payload (buffer.getD 3 0) * 2 ^ 8 +
  extract_payload (buffer.getD 4 0) * 2 ^ 4 +
  extract_payload (buffer.getD 5 0)

theorem payload_lt (buffer : List Nat) : payload buffer < 2 ^ 24 := by
  have h0 := extract_payload_lt (buffer.getD 0 0)
  have h1 := extract_payload_lt (buffer.getD 1 0)
  have h2 := extract_payload_lt (buffer.getD 2 0)
  have h3 := extract_payload_lt (buffer.getD 3 0)
  have h4 := extract_payload_lt (buffer.getD 4 0)
  have h5 := extract_payload_lt (buffer.getD 5 0)
  unfold payload
  omega

theorem decode_tdiv_core (p : Nat) (hp : p < 2 ^ 24) :
    Int.tdiv (if 256 * p < 2 ^ 31 then ((256 * p : Nat) : Int)
      else ((256 * p : Nat) : Int) - 2 ^ 32) 256 =
      (if p < 2 ^ 23 then (p : Int) else (p : Int) - 2 ^ 24) := by
  by_cases h : p < 2 ^ 23
  · rw [if_pos (by omega), if_pos h]
    have hc : ((256 * p : Nat) : Int) = 256 * (p : Int) := by push_cast; ring
    rw [hc]
    exact Int.mul_tdiv_cancel_left _ (by norm_num)
  · rw [if_neg (by omega), if_neg h]
    have hc : ((256 * p : Nat) : Int) - 2 ^ 32 =
        256 * ((p : Int) - 2 ^ 24) := by push_cast; ring
    rw [hc]
    exact Int.mul_tdiv_cancel_left _ (by norm_num)

theorem decode_fdiv_core (p : Nat) (hp : p < 2 ^ 24) :
    Int.fdiv (if p * 2 ^ 8 < 2 ^ 31 then ((p * 2 ^ 8 : Nat) : Int)
      else ((p * 2 ^ 8 : Nat) : Int) - 2 ^ 32) (2 ^ 8) =
      (if p < 2 ^ 23 then (p : Int) else (p : Int) - 2 ^ 24) := by
  by_cases h : p < 2 ^ 23
  · rw [if_pos (by omega), if_pos h]
    have hc : ((p * 2 ^ 8 : Nat) : Int) = 2 ^ 8 * (p : Int) := by
      push_cast; ring
    rw [hc]
    exact Int.mul_fdiv_cancel_left _ (by norm_num)
  · rw [if_neg (by omega), if_neg h]
    have hc : ((p * 2 ^ 8 : Nat) : Int) - 2 ^ 32 =
        2 ^ 8 * ((p : Int) - 2 ^ 24) := by push_cast; ring
    rw [hc]
    exact Int.mul_fdiv_cancel_left _ (by norm_num)

theorem decode_output_closed (buffer : List Nat) :
    decode_output buffer =
      if payload buffer < 2 ^ 23 then (payload buffer : Int)
      else (payload buffer : Int) - 2 ^ 24 := by
  simp only [decode_output]
  have hu : (extract_payload (buffer.getD 0 0) * 16 +
        extract_payload (buffer.getD 1 0)) * 2 ^ 24 +
      (extract_payload (buffer.getD 2 0) * 16 +
        extract_payload (buffer.getD 3 0)) * 2 ^ 16 +
      (extract_payload (buffer.getD 4 0) * 16 +
        extract_payload (buffer.getD 5 0)) * 2 ^ 8 =
      256 * payload buffer := by
    unfold payload
    ring
  rw [hu]
  exact decode_tdiv_core (payload buffer) (payload_lt buffer)

theorem decode_spec_closed (buffer : List Nat) :
    decode_spec buffer =
      if payload buffer < 2 ^ 23 then (payload buffer : Int)
      else (payload buffer : Int) - 2 ^ 24 := by
  have hfold :
      (((List.range 6).flatMap fun k =>
        [buffer.getD k 0 / 2 ^ 7 % 2, buffer.getD k 0 / 2 ^ 5 % 2,
         buffer.getD k 0 / 2 ^ 3 % 2, buffer.getD k 0 / 2 ^ 1 % 2]).foldl
        (fun acc bit => 2 * acc + bit) 0) = payload buffer := by
    have h6 : List.range 6 = [0, 1, 2, 3, 4, 5] := rfl
    rw [h6]
    simp only [List.flatMap_cons, List.flatMap_nil, List.append_nil,
      List.cons_append, List.nil_append, List.foldl_cons, List.foldl_nil]
    unfold payload extract_payload
    norm_num
    omega
  simp only [decode_spec]
  rw [hfold]
  exact decode_fdiv_core (payload buffer) (payload_lt buffer)

/-- C7: on every input buffer the decoder agrees with the reference decoder
written from the words of the specification (extract every other bit of the
first six bytes, concatenate most significant first, left-align in a
big-endian 32-bit word with low byte zero, arithmetic-right-shift by 8), and
consequently the result always lies in the signed 24-bit range
-0x800000 ..= 0x7FFFFF. -/
theorem decode_output_matches_spec (buffer : List Nat) :
    decode_output buffer = decode_spec buffer ∧
    -0x800000 ≤ decode_output buffer ∧ decode_output buffer ≤ 0x7FFFFF := by
  have h1 := decode_output_closed buffer
  have h2 := decode_spec_closed buffer
  have h3 := payload_lt buffer
  refine ⟨h1.trans h2.symm, ?_, ?_⟩ <;> rw [h1] <;> split <;> omega

end Hx711Spi
